import Mathlib

/-!
Verification development for the playlist-generator repository
(src/PLAYLISTGENERATOR.py).

The Python program has three core parts:
* `fetch_artist_metadata` — queries a music catalog service (Deezer) for a
  target artist, its top tracks and a random sample of related artists with
  their top tracks, collapsing every failure to `None`;
* `Agent.execute` — wraps one generation-service call, converting any raised
  exception into a textual error message returned on the normal channel;
* `main` — the four-stage agent pipeline run after a successful fetch.

The shallow embedding below models the external catalog service and the
generation service as records of functions returning `Except String _`
(an `Except.error e` models the corresponding Python call raising an
exception whose text is `e`), and models the unseeded call to
`random.sample` by parameterising the fetch over the sampling function.
-/

set_option autoImplicit false

namespace PlaylistGenerator

/-- One artist object as read from a catalog response: the code reads the
fields `id` and `name` (`src/PLAYLISTGENERATOR.py` lines 36-38, 57, 63). -/
structure ArtistObj where
  id : Nat
  name : String
  deriving DecidableEq, Repr

/-- One entry of the `similar` list assembled by the fetch
(`src/PLAYLISTGENERATOR.py` lines 62-65): a related artist's name together
with the titles of its fetched top tracks. -/
structure RelatedArtistInfo where
  name : String
  tracks : List String
  deriving DecidableEq, Repr

/-- The dictionary returned by `fetch_artist_metadata` on success
(`src/PLAYLISTGENERATOR.py` lines 67-71). -/
structure ArtistMetadata where
  source_artist : String
  source_tracks : List String
  similar : List RelatedArtistInfo
  deriving DecidableEq, Repr

/-- The catalog service as seen by the code.  Each field models one
`requests.get(...).json()` call together with the shape the code reads
from the decoded JSON:

* `Except.error e` — the request or the subsequent field access raised an
  exception with text `e` (network error, JSON decode error, malformed
  element shape);
* `Except.ok none` — the request succeeded but the decoded object has no
  usable `data` key (`response.get('data')` is falsy / missing);
* `Except.ok (some xs)` — the decoded object carries `data = xs`.

`search` takes the free-text query; `top` and `related` take the artist id
and the `limit` query parameter the code puts in the URL (the service is
free to ignore the limit, exactly as a real HTTP service is). -/
structure Catalog where
  search : String → Except String (Option (List ArtistObj))
  top : Nat → Nat → Except String (Option (List String))
  related : Nat → Nat → Except String (Option (List ArtistObj))

/-- The contract of Python's `random.sample(pop, k)` (used at
`src/PLAYLISTGENERATOR.py` line 51): the result lists the elements of `pop`
found at `k` distinct positions, in some order.  The unseeded randomness is
modelled by quantifying over every outcome satisfying this contract. -/
def IsRandomSample {α : Type} (pop : List α) (k : Nat) (out : List α) : Prop :=
  ∃ idxs : List (Fin pop.length), idxs.Nodup ∧ idxs.length = k ∧ out = idxs.map pop.get

/-- The sampling step of the fetch (`src/PLAYLISTGENERATOR.py` lines 50-53):
if more than 5 related artists were returned, `random.sample` (modelled by
the supplied `sampleFn`) picks 5, otherwise all returned are kept. -/
def sampledRelated (sampleFn : List ArtistObj → List ArtistObj)
    (related_data_all : List ArtistObj) : List ArtistObj :=
  if 5 < related_data_all.length then sampleFn related_data_all else related_data_all

/-- The per-related-artist loop of the fetch (`src/PLAYLISTGENERATOR.py`
lines 55-65): for each sampled related artist, request its top 2 tracks and
collect name and track titles.  Any exception aborts the whole loop (it
propagates to the enclosing `try`), which `Except`'s short-circuiting
models. -/
def fetchSimilar (cat : Catalog) : List ArtistObj → Except String (List RelatedArtistInfo)
  | [] => .ok []
  | rel_artist :: rest =>
    match cat.top rel_artist.id 2 with
    | .error e => .error e
    | .ok r_tracks_resp =>
      match fetchSimilar cat rest with
      | .error e => .error e
      | .ok tail => .ok ({ name := rel_artist.name, tracks := r_tracks_resp.getD [] } :: tail)

/-- Shallow embedding of `fetch_artist_metadata`
(`src/PLAYLISTGENERATOR.py` lines 24-74).

Step by step, following the source:
1. search for the artist; a missing or empty `data` yields `none`
   (the code's `if not response.get('data'): return None`), and the first
   match supplies `artist_id` and `real_name`;
2. request the top tracks with `limit=4` and keep the titles
   (a missing `data` key defaults to `[]` via `.get('data', [])`);
3. request up to 20 related artists, defaulting to `[]` likewise, then
   sample 5 of them when more than 5 were returned;
4. request each sampled related artist's top 2 tracks;
5. assemble the result.  Any exception anywhere inside the `try` block
   (modelled by an `Except.error` from any step) makes the whole call
   return `none`. -/
def fetch_artist_metadata (cat : Catalog) (sampleFn : List ArtistObj → List ArtistObj)
    (artist_name : String) : Option ArtistMetadata :=
  match cat.search artist_name with
  | .error _ => none
  | .ok none => none
  | .ok (some []) => none
  | .ok (some (artist_obj :: _)) =>
    match cat.top artist_obj.id 4 with
    | .error _ => none
    | .ok tracks_resp =>
      match cat.related artist_obj.id 20 with
      | .error _ => none
      | .ok related_resp =>
        match fetchSimilar cat (sampledRelated sampleFn (related_resp.getD [])) with
        | .error _ => none
        | .ok similar_artists_info =>
          some { source_artist := artist_obj.name
                 source_tracks := tracks_resp.getD []
                 similar := similar_artists_info }

/-- The per-related-artist loop instrumented with the number of catalog
requests it issues: one request per processed related artist, stopping at
the first exception (same translation as `fetchSimilar`). -/
def fetchSimilarRequests (cat : Catalog) :
    List ArtistObj → Except String (List RelatedArtistInfo) × Nat
  | [] => (.ok [], 0)
  | rel_artist :: rest =>
    match cat.top rel_artist.id 2 with
    | .error e => (.error e, 1)
    | .ok r_tracks_resp =>
      match fetchSimilarRequests cat rest with
      | (.error e, n) => (.error e, n + 1)
      | (.ok tail, n) =>
        (.ok ({ name := rel_artist.name, tracks := r_tracks_resp.getD [] } :: tail), n + 1)

/-- `fetch_artist_metadata` instrumented with the number of catalog-service
requests issued (each `requests.get` in the source counts as one request,
also when it raises).  Same translation as `fetch_artist_metadata`; the
agreement is proved in `fetch_requests_fst`. -/
def fetch_artist_metadata_requests (cat : Catalog)
    (sampleFn : List ArtistObj → List ArtistObj) (artist_name : String) :
    Option ArtistMetadata × Nat :=
  match cat.search artist_name with
  | .error _ => (none, 1)
  | .ok none => (none, 1)
  | .ok (some []) => (none, 1)
  | .ok (some (artist_obj :: _)) =>
    match cat.top artist_obj.id 4 with
    | .error _ => (none, 2)
    | .ok tracks_resp =>
      match cat.related artist_obj.id 20 with
      | .error _ => (none, 3)
      | .ok related_resp =>
        match fetchSimilarRequests cat (sampledRelated sampleFn (related_resp.getD [])) with
        | (.error _, n) => (none, 3 + n)
        | (.ok similar_artists_info, n) =>
          (some { source_artist := artist_obj.name
                  source_tracks := tracks_resp.getD []
                  similar := similar_artists_info }, 3 + n)

/-- One role-tagged message sent to the generation service
(`src/PLAYLISTGENERATOR.py` lines 84-97). -/
structure ChatMessage where
  role : String
  content : String
  deriving DecidableEq, Repr

/-- One choice of a generation-service response; the code reads
`choices[0].message.content` (`src/PLAYLISTGENERATOR.py` line 102). -/
structure Choice where
  message : ChatMessage
  deriving DecidableEq, Repr

/-- A generation-service response: a list of choices. -/
structure ChatResponse where
  choices : List Choice
  deriving DecidableEq, Repr

/-- The generation service (`InferenceClient`) as seen by the code:
`chat_completion` takes the message list and the decoding parameters
`max_tokens`, `temperature` and `top_p`; `Except.error e` models the call
raising an exception whose text is `e` (network failure, auth failure,
malformed response). -/
structure GenClient where
  chat_completion : List ChatMessage → Nat → Rat → Rat → Except String ChatResponse

/-- The `Agent` class (`src/PLAYLISTGENERATOR.py` lines 77-81): a display
name, a role instruction and the generation client bound at construction. -/
structure Agent where
  name : String
  role : String
  client : GenClient

/-- The two messages `Agent.execute` composes
(`src/PLAYLISTGENERATOR.py` lines 84-97): a system message embedding the
agent's name, role and the three fixed constraints, and a user message
wrapping the input context. -/
def Agent.messages (a : Agent) (input_context : String) : List ChatMessage :=
  [ { role := "system"
      content := "\n                РОЛЬ: " ++ a.name
        ++ "\n                ЗАДАЧА: " ++ a.role
        ++ "\n                ОГРАНИЧЕНИЯ: Русский язык, Markdown разметка, работа строго по контексту.\n                " },
    { role := "user"
      content := "КОНТЕКСТ ДАННЫХ:\n" ++ input_context } ]

/-- Shallow embedding of `Agent.execute` (`src/PLAYLISTGENERATOR.py`
lines 83-104): call `chat_completion` with `max_tokens=1500`,
`temperature=0.4`, `top_p=0.9` and return `choices[0].message.content`;
any exception raised inside the `try` block is caught and rendered as
`"Ошибка выполнения агента: "` followed by the exception text.  An empty
`choices` list makes `choices[0]` raise `IndexError` inside the same
`try`, so it lands in the same handler with Python's message
`"list index out of range"`. -/
def Agent.execute (a : Agent) (input_context : String) : String :=
  match a.client.chat_completion (a.messages input_context) 1500 (4/10) (9/10) with
  | .ok response =>
    match response.choices with
    | [] => "Ошибка выполнения агента: " ++ "list index out of range"
    | choice :: _ => choice.message.content
  | .error e => "Ошибка выполнения агента: " ++ e

/-- The context block built by `main` from the fetched metadata
(`src/PLAYLISTGENERATOR.py` lines 150-153): a header line naming the target
artist and its top tracks, a `СВЯЗАННЫЕ СУЩНОСТИ:` line, then one line per
related artist with its tracks. -/
def build_context (raw_data : ArtistMetadata) : String :=
  raw_data.similar.foldl
    (fun acc s => acc ++ "- " ++ s.name ++ " (Треки: " ++ String.intercalate ", " s.tracks ++ ")\n")
    ("ЦЕЛЕВАЯ СУЩНОСТЬ: " ++ raw_data.source_artist
      ++ " (Топ-треки: " ++ String.intercalate ", " raw_data.source_tracks ++ ")\n"
      ++ "СВЯЗАННЫЕ СУЩНОСТИ:\n")

/-- Agent 1 (`src/PLAYLISTGENERATOR.py` lines 159-163). -/
def agent1 (client : GenClient) : Agent :=
  { name := "Агент 1 (Анализатор Сходства)"
    role := "Проанализируй список связанных исполнителей. Объясни стилистические связи между целевым артистом и связанными сущностями."
    client := client }

/-- Agent 2 (`src/PLAYLISTGENERATOR.py` lines 171-175). -/
def agent2 (client : GenClient) : Agent :=
  { name := "Агент 2 (Композитор Плейлиста)"
    role := "Сформируй единый список треков на основе контекста. Формат: 'Исполнитель - Трек'. Не генерируй несуществующие данные."
    client := client }

/-- Agent 3 (`src/PLAYLISTGENERATOR.py` lines 183-187). -/
def agent3 (client : GenClient) : Agent :=
  { name := "Агент 3 (Классификатор)"
    role := "Раздели список на две контрастные категории настроения. Выведи отсортированные списки под заголовками."
    client := client }

/-- Agent 4 (`src/PLAYLISTGENERATOR.py` lines 195-201). -/
def agent4 (client : GenClient) : Agent :=
  { name := "Агент 4 (Discovery Engine)"
    role := "\n            1. Предложи 3 НОВЫХ трека от других исполнителей (которых нет в списке).\n            "
    client := client }

/-- The outputs of one pipeline run: the built context and the four stage
outputs `output_1` .. `output_4`. -/
structure PipelineResult where
  context : String
  output_1 : String
  output_2 : String
  output_3 : String
  output_4 : String
  deriving DecidableEq, Repr

/-- The four-stage pipeline of `main` run on successfully fetched metadata
(`src/PLAYLISTGENERATOR.py` lines 150-206): the context is built once;
agent 1 and agent 2 both consume it; agent 3 consumes agent 2's output;
agent 4 consumes agent 3's output. -/
def run_pipeline (client : GenClient) (raw_data : ArtistMetadata) : PipelineResult :=
  let context_payload := build_context raw_data
  let output_1 := (agent1 client).execute context_payload
  let output_2 := (agent2 client).execute context_payload
  let output_3 := (agent3 client).execute output_2
  let output_4 := (agent4 client).execute output_3
  { context := context_payload
    output_1 := output_1
    output_2 := output_2
    output_3 := output_3
    output_4 := output_4 }

/-- The run-button block of `main` (`src/PLAYLISTGENERATOR.py`
lines 138-206): fetch the metadata; if the fetch returned `None`, report
`"Исполнитель не найден."` and stop (`st.error` + `st.stop()`) before any
agent is constructed or executed — modelled as `none`; otherwise run the
four-stage pipeline. -/
def main_run (client : GenClient) (cat : Catalog)
    (sampleFn : List ArtistObj → List ArtistObj) (user_query : String) :
    Option PipelineResult :=
  match fetch_artist_metadata cat sampleFn user_query with
  | none => none
  | some raw_data => some (run_pipeline client raw_data)

/-- The list of stage outputs displayed by one run of `main`: none when the
run stopped at the fetch, the four stage outputs otherwise. -/
def stage_outputs : Option PipelineResult → List String
  | none => []
  | some r => [r.output_1, r.output_2, r.output_3, r.output_4]

/-- The hypothesis under which the unseeded sampling step is analysed:
whenever the code calls `random.sample(pop, 5)` (it only does so for
`pop.length > 5`), the outcome satisfies the `random.sample` contract. -/
def SampleContract (sampleFn : List ArtistObj → List ArtistObj) : Prop :=
  ∀ pop : List ArtistObj, 5 < pop.length → IsRandomSample pop 5 (sampleFn pop)

/-- The catalog honours the `limit` parameter of the top-tracks endpoint:
the returned `data` list never has more entries than asked for. -/
def HonorsTopLimit (cat : Catalog) : Prop :=
  ∀ (aid n : Nat) (r : Option (List String)),
    cat.top aid n = .ok r → (r.getD []).length ≤ n

/-- A deterministic Fisher-Yates-free stand-in used to instantiate the
sampling function in concrete runs: keep the first 5 related artists.  It
satisfies the `random.sample` contract (`take5_contract`). -/
def take5 (pop : List ArtistObj) : List ArtistObj := pop.take 5

/-- Six related artists returned by the concrete catalog `wCat`. -/
def wRelList : List ArtistObj :=
  [{ id := 11, name := "R1" }, { id := 12, name := "R2" }, { id := 13, name := "R3" },
   { id := 14, name := "R4" }, { id := 15, name := "R5" }, { id := 16, name := "R6" }]

/-- Concrete catalog used for concrete runs: one search match, two source
top tracks, one related top track, six related artists. -/
def wCat : Catalog :=
  { search := fun _ => .ok (some [{ id := 1, name := "A" }])
    top := fun _ n => .ok (some (if n = 4 then ["s1", "s2"] else ["r1"]))
    related := fun _ _ => .ok (some wRelList) }

/-- The metadata `fetch_artist_metadata` assembles on `wCat` with `take5`. -/
def wMeta : ArtistMetadata :=
  { source_artist := "A"
    source_tracks := ["s1", "s2"]
    similar := [{ name := "R1", tracks := ["r1"] }, { name := "R2", tracks := ["r1"] },
      { name := "R3", tracks := ["r1"] }, { name := "R4", tracks := ["r1"] },
      { name := "R5", tracks := ["r1"] }] }

/-- Concrete catalog whose search request raises. -/
def wCatFail : Catalog :=
  { search := fun _ => .error "network down"
    top := fun _ _ => .ok none
    related := fun _ _ => .ok none }

/-- Concrete catalog that finds the artist but returns empty result lists
everywhere. -/
def wCatEmpty : Catalog :=
  { search := fun _ => .ok (some [{ id := 1, name := "A" }])
    top := fun _ _ => .ok (some [])
    related := fun _ _ => .ok (some []) }

/-- Concrete catalog that ignores the `limit` query parameter and returns
five track titles even when asked for at most four. -/
def wCatOverLimit : Catalog :=
  { search := fun _ => .ok (some [{ id := 1, name := "A" }])
    top := fun _ _ => .ok (some ["t1", "t2", "t3", "t4", "t5"])
    related := fun _ _ => .ok (some []) }

/-- Concrete catalog that honours the `limit` query parameter. -/
def wCatHonors : Catalog :=
  { search := fun _ => .ok (some [{ id := 1, name := "A" }])
    top := fun _ n => .ok (some (["s1", "s2", "s3", "s4", "s5"].take n))
    related := fun _ _ => .ok (some [{ id := 21, name := "R1" }]) }

/-- The metadata `fetch_artist_metadata` assembles on `wCatHonors`. -/
def wMetaH : ArtistMetadata :=
  { source_artist := "A"
    source_tracks := ["s1", "s2", "s3", "s4"]
    similar := [{ name := "R1", tracks := ["s1", "s2"] }] }

/-- Concrete generation client that always succeeds with output `GEN`. -/
def wGen : GenClient :=
  { chat_completion := fun _ _ _ _ =>
      .ok { choices := [{ message := { role := "assistant", content := "GEN" } }] } }

/-- Concrete generation client whose call always raises. -/
def wGenFail : GenClient :=
  { chat_completion := fun _ _ _ _ => .error "401 Unauthorized" }


theorem fetchSimilarRequests_fst (cat : Catalog) (l : List ArtistObj) :
    (fetchSimilarRequests cat l).1 = fetchSimilar cat l := by
  induction l with
  | nil => rfl
  | cons a rest ih =>
    simp only [fetchSimilarRequests, fetchSimilar]
    cases cat.top a.id 2 with
    | error e => rfl
    | ok r =>
      rw [← ih]
      cases fetchSimilarRequests cat rest with
      | mk res n => cases res <;> rfl

theorem fetch_requests_fst (cat : Catalog) (sampleFn : List ArtistObj → List ArtistObj)
    (q : String) :
    (fetch_artist_metadata_requests cat sampleFn q).1 = fetch_artist_metadata cat sampleFn q := by
  cases hs : cat.search q with
  | error e => simp [fetch_artist_metadata_requests, fetch_artist_metadata, hs]
  | ok r =>
    match r with
    | none => simp [fetch_artist_metadata_requests, fetch_artist_metadata, hs]
    | some [] => simp [fetch_artist_metadata_requests, fetch_artist_metadata, hs]
    | some (a :: rest) =>
      cases ht : cat.top a.id 4 with
      | error e => simp [fetch_artist_metadata_requests, fetch_artist_metadata, hs, ht]
      | ok tr =>
        cases hr : cat.related a.id 20 with
        | error e => simp [fetch_artist_metadata_requests, fetch_artist_metadata, hs, ht, hr]
        | ok rr =>
          cases hf : fetchSimilarRequests cat (sampledRelated sampleFn (rr.getD [])) with
          | mk res n =>
            have h2 := fetchSimilarRequests_fst cat (sampledRelated sampleFn (rr.getD []))
            rw [hf] at h2
            cases res with
            | error e =>
              simp [fetch_artist_metadata_requests, fetch_artist_metadata, hs, ht, hr, hf, ← h2]
            | ok sim =>
              simp [fetch_artist_metadata_requests, fetch_artist_metadata, hs, ht, hr, hf, ← h2]


theorem IsRandomSample.length_eq {α : Type} {pop out : List α} {k : Nat}
    (h : IsRandomSample pop k out) : out.length = k := by
  obtain ⟨idxs, -, hlen, rfl⟩ := h
  simp [hlen]

theorem IsRandomSample.mem_of_mem {α : Type} {pop out : List α} {k : Nat}
    (h : IsRandomSample pop k out) {x : α} (hx : x ∈ out) : x ∈ pop := by
  obtain ⟨idxs, -, -, rfl⟩ := h
  obtain ⟨i, -, rfl⟩ := List.mem_map.mp hx
  exact List.mem_iff_get.mpr ⟨i, rfl⟩

theorem IsRandomSample.nodup {α : Type} {pop out : List α} {k : Nat}
    (h : IsRandomSample pop k out) (hpop : pop.Nodup) : out.Nodup := by
  obtain ⟨idxs, hnd, -, rfl⟩ := h
  exact List.Nodup.map (List.nodup_iff_injective_get.mp hpop) hnd

theorem fetchSimilar_ok_names (cat : Catalog) (l : List ArtistObj)
    (r : List RelatedArtistInfo) (h : fetchSimilar cat l = .ok r) :
    r.map RelatedArtistInfo.name = l.map ArtistObj.name := by
  induction l generalizing r with
  | nil =>
    simp only [fetchSimilar, Except.ok.injEq] at h
    subst h
    rfl
  | cons a rest ih =>
    simp only [fetchSimilar] at h
    cases ht : cat.top a.id 2 with
    | error e => rw [ht] at h; cases h
    | ok tr =>
      rw [ht] at h
      cases hrec : fetchSimilar cat rest with
      | error e => rw [hrec] at h; cases h
      | ok tail =>
        rw [hrec] at h
        simp only [Except.ok.injEq] at h
        subst h
        simp [ih tail hrec]

theorem fetchSimilar_ok_length (cat : Catalog) (l : List ArtistObj)
    (r : List RelatedArtistInfo) (h : fetchSimilar cat l = .ok r) :
    r.length = l.length := by
  have := congrArg List.length (fetchSimilar_ok_names cat l r h)
  simpa using this

theorem fetchSimilar_ok_of_fn (cat : Catalog) (l : List ArtistObj)
    (f : ArtistObj → Option (List String))
    (h : ∀ b ∈ l, cat.top b.id 2 = .ok (f b)) :
    fetchSimilar cat l = .ok (l.map fun b => { name := b.name, tracks := (f b).getD [] }) := by
  induction l with
  | nil => rfl
  | cons a rest ih =>
    simp only [fetchSimilar]
    rw [h a (by simp), ih (fun b hb => h b (by simp [hb]))]
    rfl


theorem fetchSimilar_tracks_le (cat : Catalog) (hcat : HonorsTopLimit cat)
    (l : List ArtistObj) (r : List RelatedArtistInfo)
    (h : fetchSimilar cat l = .ok r) :
    ∀ x ∈ r, x.tracks.length ≤ 2 := by
  induction l generalizing r with
  | nil =>
    simp only [fetchSimilar, Except.ok.injEq] at h
    subst h
    intro x hx
    cases hx
  | cons a rest ih =>
    simp only [fetchSimilar] at h
    cases ht : cat.top a.id 2 with
    | error e => rw [ht] at h; cases h
    | ok tr =>
      rw [ht] at h
      cases hrec : fetchSimilar cat rest with
      | error e => rw [hrec] at h; cases h
      | ok tail =>
        rw [hrec] at h
        simp only [Except.ok.injEq] at h
        subst h
        intro x hx
        rcases List.mem_cons.mp hx with hx | hx
        · subst hx
          exact hcat a.id 2 tr ht
        · exact ih tail hrec x hx

theorem fetchSimilarRequests_count_le (cat : Catalog) (l : List ArtistObj) :
    (fetchSimilarRequests cat l).2 ≤ l.length := by
  induction l with
  | nil => simp [fetchSimilarRequests]
  | cons a rest ih =>
    simp only [fetchSimilarRequests]
    cases cat.top a.id 2 with
    | error e => simp
    | ok tr =>
      cases hrec : fetchSimilarRequests cat rest with
      | mk res n =>
        rw [hrec] at ih
        cases res <;> simpa using ih

theorem fetchSimilarRequests_count_ok (cat : Catalog) (l : List ArtistObj)
    (r : List RelatedArtistInfo) (h : (fetchSimilarRequests cat l).1 = .ok r) :
    (fetchSimilarRequests cat l).2 = l.length := by
  induction l generalizing r with
  | nil => simp [fetchSimilarRequests]
  | cons a rest ih =>
    cases ht : cat.top a.id 2 with
    | error e => simp [fetchSimilarRequests, ht] at h
    | ok tr =>
      cases hrec : fetchSimilarRequests cat rest with
      | mk res n =>
        cases res with
        | error e => simp [fetchSimilarRequests, ht, hrec] at h
        | ok tail =>
          have hn := ih tail (by rw [hrec])
          rw [hrec] at hn
          simp only at hn
          simp [fetchSimilarRequests, ht, hrec, hn]

/-- Inversion of a successful fetch: every step of the sequence returned
normally, the search produced at least one match, and the result fields are
exactly the assembled values. -/
theorem fetch_some_inv (cat : Catalog) (sampleFn : List ArtistObj → List ArtistObj)
    (q : String) (m : ArtistMetadata)
    (h : fetch_artist_metadata cat sampleFn q = some m) :
    ∃ (a : ArtistObj) (rest : List ArtistObj) (tr : Option (List String))
      (rr : Option (List ArtistObj)) (sim : List RelatedArtistInfo),
      cat.search q = .ok (some (a :: rest)) ∧
      cat.top a.id 4 = .ok tr ∧
      cat.related a.id 20 = .ok rr ∧
      fetchSimilar cat (sampledRelated sampleFn (rr.getD [])) = .ok sim ∧
      m = { source_artist := a.name, source_tracks := tr.getD [], similar := sim } := by
  cases hs : cat.search q with
  | error e => simp [fetch_artist_metadata, hs] at h
  | ok r =>
    match r with
    | none => simp [fetch_artist_metadata, hs] at h
    | some [] => simp [fetch_artist_metadata, hs] at h
    | some (a :: rest) =>
      cases ht : cat.top a.id 4 with
      | error e => simp [fetch_artist_metadata, hs, ht] at h
      | ok tr =>
        cases hr : cat.related a.id 20 with
        | error e => simp [fetch_artist_metadata, hs, ht, hr] at h
        | ok rr =>
          cases hf : fetchSimilar cat (sampledRelated sampleFn (rr.getD [])) with
          | error e => simp [fetch_artist_metadata, hs, ht, hr, hf] at h
          | ok sim =>
            simp only [fetch_artist_metadata, hs, ht, hr, hf, Option.some.injEq] at h
            exact ⟨a, rest, tr, rr, sim, rfl, ht, hr, hf, h.symm⟩

theorem take5_contract : SampleContract take5 := by
  intro pop h5
  refine ⟨(List.finRange pop.length).take 5, ?_, ?_, ?_⟩
  · exact ((List.nodup_finRange _).sublist (List.take_sublist _ _))
  · simp [List.length_take]
    omega
  · simp only [take5, List.map_take, List.finRange_map_get]

/-- Claim C3: for every input context and every generation-service
behaviour, `Agent.execute` returns a string and never raises (in the
embedding it is a total function into `String`, all exception paths of the
source being handled); when the generation call throws an exception `e`,
the returned string is the human-readable failure description
`"Ошибка выполнения агента: "` followed by the exception text — a
recognizable failure indicator — and it is delivered on the same channel
(the ordinary `String` return value) as a successful generation, with no
distinct error signal. -/
theorem agent_execute_masks_failure (a : Agent) (input_context : String) (e : String)
    (h : a.client.chat_completion (a.messages input_context) 1500 (4/10) (9/10) = .error e) :
    Agent.execute a input_context = "Ошибка выполнения агента: " ++ e := by
  simp [Agent.execute, h]

theorem agent_execute_masks_failure_witness :
    Agent.execute { name := "N", role := "R", client := wGenFail } "ctx"
      = "Ошибка выполнения агента: " ++ "401 Unauthorized" :=
  agent_execute_masks_failure { name := "N", role := "R", client := wGenFail } "ctx"
    "401 Unauthorized" rfl

/-- Claim C10: for every exception `e` raised by the generation call, the
string `Agent.execute` returns is exactly the fixed text
`"Ошибка выполнения агента: "` followed by the text of `e`, so the failure
case carries that constant leading text, and the error text never equals a
successful completion that lacks it. -/
theorem agent_error_text_shape (a : Agent) (ctx : String) (e : String)
    (h : a.client.chat_completion (a.messages ctx) 1500 (4/10) (9/10) = .error e) :
    Agent.execute a ctx = "Ошибка выполнения агента: " ++ e ∧
    ∀ s : String, (¬ ∃ rest, s = "Ошибка выполнения агента: " ++ rest) →
      Agent.execute a ctx ≠ s := by
  have heq : Agent.execute a ctx = "Ошибка выполнения агента: " ++ e := by
    simp [Agent.execute, h]
  refine ⟨heq, fun s hs hcontra => hs ⟨e, ?_⟩⟩
  rw [← hcontra, heq]

theorem agent_error_text_shape_witness :
    Agent.execute { name := "N2", role := "R2", client := wGenFail } "c"
      = "Ошибка выполнения агента: " ++ "401 Unauthorized" :=
  (agent_error_text_shape { name := "N2", role := "R2", client := wGenFail } "c"
    "401 Unauthorized" rfl).1

/-- Claim C7: context building is pure and deterministic — on identical
`ArtistMetadata` inputs, two runs of `build_context` produce byte-identical
strings (the embedding of the building code depends on nothing but its
input). -/
theorem build_context_deterministic (m m' : ArtistMetadata) (h : m = m') :
    build_context m = build_context m' ∧
    (build_context m).data = (build_context m').data := by
  subst h
  exact ⟨rfl, rfl⟩

theorem build_context_deterministic_witness :
    build_context wMeta = build_context wMeta ∧
    (build_context wMeta).data = (build_context wMeta).data :=
  build_context_deterministic wMeta wMeta rfl

/-- Claim C4: for every pipeline run that starts (the fetch returned
non-`none` metadata), stage 1 and stage 2 both receive the built context
(not each other's output), stage 3's input is exactly stage 2's output,
stage 4's input is exactly stage 3's output, and the run completes all
four stages, producing exactly 4 stage outputs. -/
theorem pipeline_ordering (client : GenClient) (cat : Catalog)
    (sampleFn : List ArtistObj → List ArtistObj) (q : String) (raw_data : ArtistMetadata)
    (hfetch : fetch_artist_metadata cat sampleFn q = some raw_data) :
    main_run client cat sampleFn q = some (run_pipeline client raw_data) ∧
    (run_pipeline client raw_data).context = build_context raw_data ∧
    (run_pipeline client raw_data).output_1
      = (agent1 client).execute ((run_pipeline client raw_data).context) ∧
    (run_pipeline client raw_data).output_2
      = (agent2 client).execute ((run_pipeline client raw_data).context) ∧
    (run_pipeline client raw_data).output_3
      = (agent3 client).execute ((run_pipeline client raw_data).output_2) ∧
    (run_pipeline client raw_data).output_4
      = (agent4 client).execute ((run_pipeline client raw_data).output_3) ∧
    (stage_outputs (main_run client cat sampleFn q)).length = 4 := by
  refine ⟨by simp [main_run, hfetch], rfl, rfl, rfl, rfl, rfl, ?_⟩
  simp [main_run, hfetch, stage_outputs]

theorem pipeline_ordering_witness :
    main_run wGen wCat take5 "Linkin Park" = some (run_pipeline wGen wMeta) ∧
    (stage_outputs (main_run wGen wCat take5 "Linkin Park")).length = 4 := by
  have h := pipeline_ordering wGen wCat take5 "Linkin Park" wMeta (by decide)
  exact ⟨h.1, h.2.2.2.2.2.2⟩

/-- Claim C5: for every run in which the fetch returned `none`
(metadata unavailable), the pipeline halts before any agent executes —
modelled both by the run result being the distinct `none` condition with
an empty stage-output list, and by the run result being independent of the
generation client (so no generation call can influence it). -/
theorem metadata_unavailable_halts (client client' : GenClient) (cat : Catalog)
    (sampleFn : List ArtistObj → List ArtistObj) (q : String)
    (h : fetch_artist_metadata cat sampleFn q = none) :
    main_run client cat sampleFn q = none ∧
    stage_outputs (main_run client cat sampleFn q) = [] ∧
    main_run client cat sampleFn q = main_run client' cat sampleFn q := by
  simp [main_run, h, stage_outputs]

theorem metadata_unavailable_halts_witness :
    main_run wGen wCatFail take5 "Zzyzx123" = none ∧
    stage_outputs (main_run wGen wCatFail take5 "Zzyzx123") = [] ∧
    main_run wGen wCatFail take5 "Zzyzx123" = main_run wGenFail wCatFail take5 "Zzyzx123" :=
  metadata_unavailable_halts wGen wGenFail wCatFail take5 "Zzyzx123" rfl

/-- Claim C1: for every related-artists list returned by the catalog in a
completed fetch, when its length exceeds 5 the sampled related set kept by
the fetch has exactly 5 members, all drawn from the returned list, with no
duplicates (provided the returned list itself has none, as distinct catalog
entries do); when its length is at most 5, the kept set is the full
returned list.  The kept set is what populates the result's `similar`
field, name for name. -/
theorem fetch_sampling_policy (cat : Catalog)
    (sampleFn : List ArtistObj → List ArtistObj) (q : String) (m : ArtistMetadata)
    (a : ArtistObj) (rest : List ArtistObj) (rr : Option (List ArtistObj))
    (hsample : SampleContract sampleFn)
    (hs : cat.search q = .ok (some (a :: rest)))
    (hr : cat.related a.id 20 = .ok rr)
    (hm : fetch_artist_metadata cat sampleFn q = some m) :
    (5 < (rr.getD []).length →
      (sampledRelated sampleFn (rr.getD [])).length = 5 ∧
      (∀ x ∈ sampledRelated sampleFn (rr.getD []), x ∈ rr.getD []) ∧
      ((rr.getD []).Nodup → (sampledRelated sampleFn (rr.getD [])).Nodup)) ∧
    ((rr.getD []).length ≤ 5 → sampledRelated sampleFn (rr.getD []) = rr.getD []) ∧
    m.similar.map RelatedArtistInfo.name
      = (sampledRelated sampleFn (rr.getD [])).map ArtistObj.name := by
  refine ⟨?_, ?_, ?_⟩
  · intro h5
    have hrs := hsample (rr.getD []) h5
    have hkept : sampledRelated sampleFn (rr.getD []) = sampleFn (rr.getD []) := by
      simp [sampledRelated, h5]
    rw [hkept]
    exact ⟨hrs.length_eq, fun x hx => hrs.mem_of_mem hx, fun hnd => hrs.nodup hnd⟩
  · intro hle
    simp [sampledRelated, Nat.not_lt.mpr hle]
  · obtain ⟨a', rest', tr', rr', sim, hs', ht', hr', hf', hmeq⟩ :=
      fetch_some_inv cat sampleFn q m hm
    rw [hs] at hs'
    simp only [Except.ok.injEq, Option.some.injEq, List.cons.injEq] at hs'
    obtain ⟨ha, -⟩ := hs'
    subst ha
    rw [hr] at hr'
    simp only [Except.ok.injEq] at hr'
    subst hr'
    rw [hmeq]
    exact fetchSimilar_ok_names cat _ sim hf'

theorem fetch_sampling_policy_witness :
    (sampledRelated take5 ((some wRelList).getD [])).length = 5 ∧
    wMeta.similar.map RelatedArtistInfo.name
      = (sampledRelated take5 ((some wRelList).getD [])).map ArtistObj.name := by
  have h := fetch_sampling_policy wCat take5 "Linkin Park" wMeta
    { id := 1, name := "A" } [] (some wRelList) take5_contract rfl rfl (by decide)
  exact ⟨(h.1 (by decide)).1, h.2.2⟩

/-- Claim C2: for every artist query and every catalog behaviour, if any
step of the fetch sequence throws — the search request, the top-tracks
request, the related-list request, or any sampled related artist's
top-tracks request — the whole fetch yields `none`, with no partial
result; likewise the fetch yields `none` when the search produced no
usable result (`data` missing or empty). -/
theorem fetch_failure_collapse (cat : Catalog)
    (sampleFn : List ArtistObj → List ArtistObj) (q : String)
    (h : (∃ e, cat.search q = .error e) ∨
      cat.search q = .ok none ∨
      cat.search q = .ok (some []) ∨
      (∃ a rest, cat.search q = .ok (some (a :: rest)) ∧
        ((∃ e, cat.top a.id 4 = .error e) ∨
         (∃ e, cat.related a.id 20 = .error e) ∨
         (∃ rr, cat.related a.id 20 = .ok rr ∧
           ∃ e, fetchSimilar cat (sampledRelated sampleFn (rr.getD [])) = .error e)))) :
    fetch_artist_metadata cat sampleFn q = none := by
  cases hres : fetch_artist_metadata cat sampleFn q with
  | none => rfl
  | some m =>
    exfalso
    obtain ⟨a, rest, tr, rr, sim, hs, ht, hr, hf, -⟩ := fetch_some_inv cat sampleFn q m hres
    rcases h with ⟨e, he⟩ | he | he | ⟨a', rest', hs', h4⟩
    · rw [he] at hs; cases hs
    · rw [he] at hs; simp at hs
    · rw [he] at hs; simp at hs
    · rw [hs] at hs'
      simp only [Except.ok.injEq, Option.some.injEq, List.cons.injEq] at hs'
      obtain ⟨ha, -⟩ := hs'
      subst ha
      rcases h4 with ⟨e, he⟩ | ⟨e, he⟩ | ⟨rr', hrr, e, he⟩
      · rw [he] at ht; cases ht
      · rw [he] at hr; cases hr
      · rw [hr] at hrr
        simp only [Except.ok.injEq] at hrr
        subst hrr
        rw [he] at hf; cases hf

theorem fetch_failure_collapse_witness :
    fetch_artist_metadata wCatFail take5 "Linkin Park" = none :=
  fetch_failure_collapse wCatFail take5 "Linkin Park" (Or.inl ⟨"network down", rfl⟩)

/-- Claim C9: for a found artist, empty result lists from well-formed
catalog responses are not failures: whatever per-artist track responses
the catalog gives (in particular empty ones), and however short the
related list is (in particular empty), the fetch returns `some` metadata
holding exactly the corresponding (possibly empty) sequences. -/
theorem fetch_empty_results_ok (cat : Catalog)
    (sampleFn : List ArtistObj → List ArtistObj) (q : String)
    (a : ArtistObj) (rest : List ArtistObj) (tr : Option (List String))
    (rr : Option (List ArtistObj)) (f : ArtistObj → Option (List String))
    (hs : cat.search q = .ok (some (a :: rest)))
    (ht : cat.top a.id 4 = .ok tr)
    (hr : cat.related a.id 20 = .ok rr)
    (hrel : ∀ b ∈ sampledRelated sampleFn (rr.getD []), cat.top b.id 2 = .ok (f b)) :
    fetch_artist_metadata cat sampleFn q =
      some { source_artist := a.name
             source_tracks := tr.getD []
             similar := (sampledRelated sampleFn (rr.getD [])).map
               fun b => { name := b.name, tracks := (f b).getD [] } } := by
  have hf := fetchSimilar_ok_of_fn cat (sampledRelated sampleFn (rr.getD [])) f hrel
  simp [fetch_artist_metadata, hs, ht, hr, hf]

theorem fetch_empty_results_ok_witness :
    fetch_artist_metadata wCatEmpty take5 "Echo"
      = some { source_artist := "A", source_tracks := [], similar := [] } := by
  have h := fetch_empty_results_ok wCatEmpty take5 "Echo"
    { id := 1, name := "A" } [] (some []) (some []) (fun _ => some [])
    rfl rfl rfl (fun b _ => rfl)
  simpa using h

theorem sampledRelated_length_le (sampleFn : List ArtistObj → List ArtistObj)
    (hsample : SampleContract sampleFn) (l : List ArtistObj) :
    (sampledRelated sampleFn l).length ≤ 5 := by
  unfold sampledRelated
  split
  · exact le_of_eq (hsample l ‹_›).length_eq
  · omega

theorem wCatHonors_limit : HonorsTopLimit wCatHonors := by
  intro aid n r h
  simp only [wCatHonors, Except.ok.injEq] at h
  subst h
  simp [List.length_take]

/-- Claim C6 counterexample: the code never truncates the track lists it
receives, so a catalog response shape that ignores the requested `limit`
makes `fetch_artist_metadata` return metadata whose `source_tracks` has 5
entries — more than the claimed bound of 4. -/
theorem source_tracks_bound_cex :
    fetch_artist_metadata wCatOverLimit take5 "Linkin Park"
      = some { source_artist := "A"
               source_tracks := ["t1", "t2", "t3", "t4", "t5"]
               similar := [] } ∧
    ¬ ((["t1", "t2", "t3", "t4", "t5"] : List String).length ≤ 4) := by
  exact ⟨by decide, by decide⟩

/-- Claim C6 amended: for every non-`none` metadata produced by the fetch,
provided the catalog honours the `limit` parameter of its top-tracks
endpoint (which is all the code relies on — it requests 4 source tracks
and 2 tracks per related artist and keeps whatever comes back), the length
of `source_tracks` is at most 4 and the length of each related artist's
`tracks` is at most 2. -/
theorem fetch_track_bounds (cat : Catalog)
    (sampleFn : List ArtistObj → List ArtistObj) (q : String) (m : ArtistMetadata)
    (hcat : HonorsTopLimit cat)
    (hm : fetch_artist_metadata cat sampleFn q = some m) :
    m.source_tracks.length ≤ 4 ∧ ∀ r ∈ m.similar, r.tracks.length ≤ 2 := by
  obtain ⟨a, rest, tr, rr, sim, hs, ht, hr, hf, hmeq⟩ := fetch_some_inv cat sampleFn q m hm
  subst hmeq
  exact ⟨hcat a.id 4 tr ht, fetchSimilar_tracks_le cat hcat _ sim hf⟩

theorem fetch_track_bounds_witness :
    wMetaH.source_tracks.length ≤ 4 ∧
    ({ name := "R1", tracks := ["s1", "s2"] } : RelatedArtistInfo).tracks.length ≤ 2 := by
  have h := fetch_track_bounds wCatHonors take5 "Linkin Park" wMetaH wCatHonors_limit (by decide)
  exact ⟨h.1, h.2 _ (by simp [wMetaH])⟩

/-- Claim C8 counterexample: a fetch whose search request raises issues
only that single request — not the claimed 3-to-8 — because the failure
aborts the sequence. -/
theorem request_count_cex :
    (fetch_artist_metadata_requests wCatFail take5 "Linkin Park").2 = 1 ∧
    ¬ (3 ≤ (fetch_artist_metadata_requests wCatFail take5 "Linkin Park").2) := by
  exact ⟨by decide, by decide⟩

/-- Claim C8 amended: under the `random.sample` contract, every call to
the fetch issues at most 8 catalog requests, and every call that returns
non-`none` metadata issues exactly `1 (search) + 1 (top tracks) +
1 (related list) + k (one per sampled related artist)` requests with
`k ≤ 5` — hence between 3 and 8; a call that fails part-way issues only
the requests up to and including the failing one, so fewer than 3 is
possible. -/
theorem fetch_request_count (cat : Catalog)
    (sampleFn : List ArtistObj → List ArtistObj) (q : String)
    (hsample : SampleContract sampleFn) :
    (fetch_artist_metadata_requests cat sampleFn q).2 ≤ 8 ∧
    ∀ m, fetch_artist_metadata cat sampleFn q = some m →
      (fetch_artist_metadata_requests cat sampleFn q).2 = 3 + m.similar.length ∧
      m.similar.length ≤ 5 ∧
      3 ≤ (fetch_artist_metadata_requests cat sampleFn q).2 := by
  constructor
  · cases hs : cat.search q with
    | error e => simp [fetch_artist_metadata_requests, hs]
    | ok r =>
      match r with
      | none => simp [fetch_artist_metadata_requests, hs]
      | some [] => simp [fetch_artist_metadata_requests, hs]
      | some (a :: rest) =>
        cases ht : cat.top a.id 4 with
        | error e => simp [fetch_artist_metadata_requests, hs, ht]
        | ok tr =>
          cases hr : cat.related a.id 20 with
          | error e => simp [fetch_artist_metadata_requests, hs, ht, hr]
          | ok rr =>
            have hcount := fetchSimilarRequests_count_le cat (sampledRelated sampleFn (rr.getD []))
            have hlen := sampledRelated_length_le sampleFn hsample (rr.getD [])
            cases hf : fetchSimilarRequests cat (sampledRelated sampleFn (rr.getD [])) with
            | mk res n =>
              rw [hf] at hcount
              simp only at hcount
              cases res with
              | error e =>
                simp only [fetch_artist_metadata_requests, hs, ht, hr, hf]
                omega
              | ok sim =>
                simp only [fetch_artist_metadata_requests, hs, ht, hr, hf]
                omega
  · intro m hm
    obtain ⟨a, rest, tr, rr, sim, hs, ht, hr, hf, hmeq⟩ := fetch_some_inv cat sampleFn q m hm
    have h1 : (fetchSimilarRequests cat (sampledRelated sampleFn (rr.getD []))).1 = .ok sim := by
      rw [fetchSimilarRequests_fst]
      exact hf
    have h2 := fetchSimilarRequests_count_ok cat _ sim h1
    have h3 := fetchSimilar_ok_length cat _ sim hf
    have hlen := sampledRelated_length_le sampleFn hsample (rr.getD [])
    have hsim : m.similar = sim := by rw [hmeq]
    cases hfr : fetchSimilarRequests cat (sampledRelated sampleFn (rr.getD [])) with
    | mk res n =>
      rw [hfr] at h2
      simp only at h2
      have hcnt : (fetch_artist_metadata_requests cat sampleFn q).2 = 3 + n := by
        simp [fetch_artist_metadata_requests, hs, ht, hr, hfr]
        rw [hfr] at h1
        simp only at h1
        subst h1
        simp
      rw [hcnt, hsim, h3, h2]
      omega

theorem fetch_request_count_witness :
    (fetch_artist_metadata_requests wCat take5 "Linkin Park").2 ≤ 8 ∧
    (fetch_artist_metadata_requests wCat take5 "Linkin Park").2 = 3 + wMeta.similar.length := by
  have h := fetch_request_count wCat take5 "Linkin Park" take5_contract
  exact ⟨h.1, (h.2 wMeta (by decide)).1⟩

end PlaylistGenerator
